import Mathlib

/- Verification of the incremental PDF preview engine (class PdfPreview in the
   repository's pdf preview module).

   Shallow-embedding conventions:
   * The engine is a state machine over `PdfState`; the browser environment is
     an oracle `Env`: DOM layout is computed by the browser, so the page
     container's scroll extent is an arbitrary function of the list of page
     wrappers appended so far, and the outcome of each asynchronous per-page
     operation (document.getPage resolving, canvas.getContext being non-null,
     page.render resolving) is an arbitrary function of the page number.
   * The runtime is single-threaded and every public operation awaits its
     asynchronous steps to completion, so each operation is modelled as a
     total state-transition function and a session is a fold over a list of
     operations.
   * `requests` records every invocation of the per-page render operation
     getPdfPage (in call order); `rendered` records the pages whose wrapper
     element was appended to the page container (getPage resolved; the wrapper
     is appended before the drawing-context check, as in the source).
   * `errors` records the messages delivered to the onError callback, in
     order.  The loading indicator's visibility always mirrors `isLoading`.
   * `domChildren` counts the child elements of the mount element handed to
     the constructor; the constructor appends exactly one container element
     that holds all the viewer chrome.
   * The fire-and-forget outline rendering (renderOutline) and the onLoad
     callback mutate only the table-of-contents pane and the caller, which no
     claim inspects; they are not modelled.  Outline filtering is modelled
     separately on a tree type mirroring the ul/li structure renderOutline
     builds. -/

structure BaseReturn where
  success : Bool
  data : Option Nat
  message : Option String
  deriving DecidableEq

def msgNoDoc : String := "pdfDoc is undefined"

def msgNoCtx : String := "Failed to get canvas context"

def msgRenderPdfFallback : String := "Failed to render PDF"

structure Env where
  clientHeight : Nat
  contentHeight : List Nat → Nat
  getPageOk : Nat → Bool
  getPageMsg : Nat → String
  ctxOk : Nat → Bool
  renderOk : Nat → Bool
  renderMsg : Nat → String
  numPages : Nat

structure PdfState where
  pageNumber : Nat
  total : Nat
  hasDoc : Bool
  isLoading : Bool
  visiblePages : Finset Nat
  rendered : List Nat
  requests : List Nat
  errors : List String
  indicator : Option Nat
  domChildren : Nat
  scrollTop : Int
  deriving DecidableEq

/- State right after the constructor ran: counters zeroed, busy flag clear,
   visible set empty, and exactly one chrome container appended to the mount. -/
def initState : PdfState :=
  { pageNumber := 0, total := 0, hasDoc := false, isLoading := false,
    visiblePages := ∅, rendered := [], requests := [], errors := [],
    indicator := none, domChildren := 1, scrollTop := 0 }

/- Branch structure of getPdfPage: which wrapper gets appended, which message
   goes to the error channel, and the returned result, per page number.  The
   branches appear in source order: missing document, getPage rejected,
   missing drawing context, render rejected, success. -/
def pageOutcome (env : Env) (hasDoc : Bool) (n : Nat) : List Nat × List String × BaseReturn :=
  if !hasDoc then ([], [], ⟨false, none, some msgNoDoc⟩)
  else if !env.getPageOk n then
    ([], [env.getPageMsg n], ⟨false, none, some (env.getPageMsg n)⟩)
  else if !env.ctxOk n then
    ([n], [msgNoCtx], ⟨false, none, some msgNoCtx⟩)
  else if !env.renderOk n then
    ([n], [env.renderMsg n], ⟨false, none, some (env.renderMsg n)⟩)
  else ([n], [], ⟨true, some n, none⟩)

/- getPdfPage: requests the page, appends the wrapper when getPage resolves,
   reports context/render failures to onError, and never throws (each failure
   is returned as a BaseReturn).  The missing-document branch returns a
   failure without touching the error channel, as in the source. -/
def getPdfPage (env : Env) (st : PdfState) (n : Nat) : PdfState × BaseReturn :=
  let o := pageOutcome env st.hasDoc n
  ({st with requests := st.requests ++ [n],
            rendered := st.rendered ++ o.1,
            errors := st.errors ++ o.2.1}, o.2.2)

/- renderNextPage: drop the request while busy or once all pages are done;
   otherwise set the busy flag, render the cursor's successor, advance the
   cursor unconditionally (also on a failed render), and clear the flag. -/
def renderNextPage (env : Env) (st : PdfState) : PdfState :=
  if st.isLoading = true ∨ st.total ≤ st.pageNumber then st
  else
    let next := st.pageNumber + 1
    let st1 := (getPdfPage env {st with isLoading := true} next).1
    {st1 with pageNumber := next, isLoading := false}

structure ScrollEvent where
  scrollTop : Int
  clientHeight : Int
  scrollHeight : Int
  deriving DecidableEq

/- handleScroll: drop the event while busy or once all pages are rendered;
   otherwise render one further page when within 200 layout units of the
   bottom of the mount element. -/
def handleScroll (env : Env) (ev : ScrollEvent) (st : PdfState) : PdfState :=
  if st.isLoading = true ∨ st.total ≤ st.pageNumber then st
  else if ev.scrollHeight - 200 ≤ ev.scrollTop + ev.clientHeight then
    renderNextPage env st
  else st

/- Loop body of renderPagesBatch: for (i = startPage; i <= endPage && i <= total; i++)
   await getPdfPage(i).  The fuel argument only bounds the iteration count;
   the loop condition itself is re-checked each round. -/
def batchGo (env : Env) (endPage : Nat) : Nat → Nat → PdfState → PdfState
  | 0, _, st => st
  | fuel + 1, i, st =>
    if i ≤ endPage ∧ i ≤ st.total then
      batchGo env endPage fuel (i + 1) (getPdfPage env st i).1
    else st

def renderPagesBatch (env : Env) (st : PdfState) (startPage endPage : Nat) : PdfState :=
  batchGo env endPage (min endPage st.total + 1 - startPage) startPage st

/- updatePageIndicator: the indicator text is written only when a document
   with at least one page is open. -/
def updatePageIndicator (currentPage : Nat) (st : PdfState) : PdfState :=
  if 0 < st.total then {st with indicator := some currentPage} else st

structure IEntry where
  pageNum : Nat
  isIntersecting : Bool
  deriving DecidableEq

/- One IntersectionObserver entry: pageNum 0 stands for a missing or
   unparsable data-page-number attribute and is skipped, as in the source. -/
def applyEntry (vp : Finset Nat) (e : IEntry) : Finset Nat :=
  if e.pageNum = 0 then vp
  else if e.isIntersecting then insert e.pageNum vp
  else vp.erase e.pageNum

/- handlePageIntersection: fold the entries over the visible set, then, when
   the set is non-empty, show Math.max over the set. -/
def handlePageIntersection (entries : List IEntry) (st : PdfState) : PdfState :=
  let vp := entries.foldl applyEntry st.visiblePages
  let st1 := {st with visiblePages := vp}
  if h : 0 < vp.card then
    updatePageIndicator (vp.max' (Finset.card_pos.mp h)) st1
  else st1

/- The viewport-fill estimate in navigateToPage:
   min(total - (n + 3), ceil((clientHeight - scrollHeight) / (scrollHeight / 3))).
   When scrollHeight is 0 the JS division yields Infinity, so min picks the
   first operand; that case is made explicit here because rational division
   by zero in Lean yields 0 instead. -/
def jsRemaining (total n clientH sh : Nat) : Int :=
  if sh = 0 then (total : Int) - ((n : Int) + 3)
  else
    min ((total : Int) - ((n : Int) + 3))
      (Int.ceil (((clientH : ℚ) - (sh : ℚ)) / ((sh : ℚ) / 3)))

/- navigateToPage: reject out-of-range targets, a missing document, or a busy
   scheduler before touching any state; otherwise set the busy flag, clear
   the container and the visible set, move the cursor to n - 1, scroll to the
   top, render the window of 3 pages starting at n, optionally render the
   estimated remainder, and clear the busy flag on the way out (the source's
   finally block). -/
def navigateToPage (env : Env) (n : Nat) (st : PdfState) : PdfState :=
  if n < 1 ∨ st.total < n ∨ st.hasDoc = false ∨ st.isLoading = true then st
  else
    let st1 := {st with isLoading := true, rendered := [], visiblePages := ∅,
                        pageNumber := n - 1, scrollTop := 0}
    let st2 := renderPagesBatch env st1 n (n + 2)
    let sh := env.contentHeight st2.rendered
    let st3 :=
      if sh < env.clientHeight then
        let remainingPages := jsRemaining st2.total n env.clientHeight sh
        if 0 < remainingPages then
          renderPagesBatch env st2 (n + 3) (n + 2 + remainingPages.toNat)
        else st2
      else st2
    {st3 with isLoading := false}

/- Loop condition of the initial fill in pdfPreview:
   pageNumber < total && (pageContainer.scrollHeight < dom.clientHeight || pageNumber === 0). -/
def fillGuard (env : Env) (st : PdfState) : Prop :=
  st.pageNumber < st.total ∧
    (env.contentHeight st.rendered < env.clientHeight ∨ st.pageNumber = 0)

instance (env : Env) (st : PdfState) : Decidable (fillGuard env st) := by
  unfold fillGuard; infer_instance

/- The initial-fill while loop.  The fuel argument only bounds the iteration
   count; callers pass the page total, which suffices because each iteration
   with the busy flag clear advances the cursor by one. -/
def fillLoop (env : Env) : Nat → PdfState → PdfState
  | 0, st => st
  | fuel + 1, st =>
    if fillGuard env st then fillLoop env fuel (renderNextPage env st) else st

/- State right after the document resolved, before the fill loop: the handle
   is stored, the total is set, and the indicator initialised to page 1. -/
def openBase (env : Env) (st : PdfState) : PdfState :=
  updatePageIndicator 1 {st with hasDoc := true, total := env.numPages}

/- The successful document-open path of pdfPreview, run to completion. -/
def openDoc (env : Env) (st : PdfState) : PdfState :=
  let st1 := openBase env st
  fillLoop env st1.total st1

/- pdfPreview as a promise: on load failure the message goes to onError and
   the promise rejects with the same failure result; nothing else changes. -/
def pdfPreviewRun (env : Env) (loadErr : Option String) (st : PdfState) :
    PdfState × Except BaseReturn BaseReturn :=
  match loadErr with
  | none => (openDoc env st, Except.ok ⟨true, none, none⟩)
  | some msg =>
    ({st with errors := st.errors ++ [msg]}, Except.error ⟨false, none, some msg⟩)

/- The exported renderPdf entry point around a fresh PdfPreview: it awaits
   pdfPreview inside try/catch, so a rejected open never escapes; the caught
   rejection value is a plain object rather than an Error, so the second
   onError report carries the generic fallback message. -/
def renderPdf (env : Env) (loadErr : Option String) : PdfState :=
  match pdfPreviewRun env loadErr initState with
  | (st, Except.ok _) => st
  | (st, Except.error _) => {st with errors := st.errors ++ [msgRenderPdfFallback]}

inductive Op where
  | navigate (n : Nat)
  | scroll (ev : ScrollEvent)
  | openFill

def step (env : Env) (st : PdfState) : Op → PdfState
  | Op.navigate n => navigateToPage env n st
  | Op.scroll ev => handleScroll env ev st
  | Op.openFill => openDoc env st

def runOps (env : Env) (st : PdfState) (ops : List Op) : PdfState :=
  ops.foldl (step env) st

def scrollRun (env : Env) (evs : List ScrollEvent) (st : PdfState) : PdfState :=
  evs.foldl (fun s ev => handleScroll env ev s) st

/- JS numbers as needed by the device-scale computation: window.devicePixelRatio
   may be undefined (modelled as none), and Math.min(undefined, 2) is NaN. -/
inductive JsNum where
  | nan
  | num (q : ℚ)
  deriving DecidableEq

def toNumber : Option ℚ → JsNum
  | none => JsNum.nan
  | some q => JsNum.num q

def jsMin : JsNum → JsNum → JsNum
  | JsNum.nan, _ => JsNum.nan
  | JsNum.num _, JsNum.nan => JsNum.nan
  | JsNum.num a, JsNum.num b => JsNum.num (min a b)

/- JS (x || d): undefined and 0 are falsy and select the default. -/
def jsOrDefault : Option ℚ → ℚ → ℚ
  | none, d => d
  | some q, d => if q = 0 then d else q

/- Line: isSafari() ? Math.min(window.devicePixelRatio, 2) : window.devicePixelRatio || 1 -/
def deviceScale (safari : Bool) (dpr : Option ℚ) : JsNum :=
  if safari then jsMin (toNumber dpr) (JsNum.num 2)
  else JsNum.num (jsOrDefault dpr 1)

/- Outline tree as built by renderOutline: each li holds a title span, a
   visibility flag (style.display empty vs none), and a sublist of li items. -/
mutual

inductive TocItem where
  | node (title : String) (visible : Bool) (children : TocForest)

inductive TocForest where
  | nil
  | cons (head : TocItem) (tail : TocForest)

end

/- Contiguous-substring test on character lists, the semantics of JS
   String.prototype.includes: the needle occurs as a prefix of some suffix. -/
def isInfixOfChars (needle : List Char) : List Char → Bool
  | [] => needle.isEmpty
  | c :: t => List.isPrefixOf needle (c :: t) || isInfixOfChars needle t

/- filterTocItem: own-title match is a substring test of the lowercased title
   against the (already lowercased) search text; every child is filtered in
   order; the node is shown iff its own title matches or some child subtree
   does, and the returned flag feeds the parent's childMatch. -/
mutual

def filterTocItem : TocItem → String → TocItem × Bool
  | TocItem.node title _ children, searchText =>
    let own := isInfixOfChars searchText.toList title.toLower.toList
    let r := filterTocForest children searchText
    (TocItem.node title (own || r.2) r.1, own || r.2)

def filterTocForest : TocForest → String → TocForest × Bool
  | TocForest.nil, _ => (TocForest.nil, false)
  | TocForest.cons t ts, searchText =>
    let a := filterTocItem t searchText
    let b := filterTocForest ts searchText
    (TocForest.cons a.1 b.1, a.2 || b.2)

end

/- handleTocSearch: lowercases and trims the query, then filters every
   top-level li of the outline list. -/
def handleTocSearch (roots : TocForest) (query : String) : TocForest :=
  (filterTocForest roots query.toLower.trim).1

/- Spec-side predicate: the node's own title contains the query. -/
def selfMatch (title searchText : String) : Bool :=
  isInfixOfChars searchText.toList title.toLower.toList

/- Spec-side predicate: some node of the subtree (itself included) matches. -/
mutual

def subtreeMatch : TocItem → String → Bool
  | TocItem.node title _ children, s => selfMatch title s || forestMatch children s

def forestMatch : TocForest → String → Bool
  | TocForest.nil, _ => false
  | TocForest.cons t ts, s => subtreeMatch t s || forestMatch ts s

end

/- Spec-side filter: set every node's visibility to its subtree-match flag,
   leaving the tree structure untouched. -/
mutual

def markVisible : TocItem → String → TocItem
  | TocItem.node title v children, s =>
    TocItem.node title (subtreeMatch (TocItem.node title v children) s)
      (markForest children s)

def markForest : TocForest → String → TocForest
  | TocForest.nil, _ => TocForest.nil
  | TocForest.cons t ts, s => TocForest.cons (markVisible t s) (markForest ts s)

end

/- Erase visibility information by forcing every flag on: two trees agree
   under this map iff they have the same structure and titles. -/
mutual

def setVisibleAll : TocItem → TocItem
  | TocItem.node title _ children => TocItem.node title true (setForestAll children)

def setForestAll : TocForest → TocForest
  | TocForest.nil => TocForest.nil
  | TocForest.cons t ts => TocForest.cons (setVisibleAll t) (setForestAll ts)

end

/- ————————————————————————  Theorems  ———————————————————————— -/

theorem getPdfPage_pageNumber (env : Env) (st : PdfState) (n : Nat) :
    ((getPdfPage env st n).1).pageNumber = st.pageNumber := rfl

theorem getPdfPage_total (env : Env) (st : PdfState) (n : Nat) :
    ((getPdfPage env st n).1).total = st.total := rfl

theorem getPdfPage_isLoading (env : Env) (st : PdfState) (n : Nat) :
    ((getPdfPage env st n).1).isLoading = st.isLoading := rfl

theorem getPdfPage_requests (env : Env) (st : PdfState) (n : Nat) :
    ((getPdfPage env st n).1).requests = st.requests ++ [n] := rfl

theorem getPdfPage_rendered (env : Env) (st : PdfState) (n : Nat) :
    ((getPdfPage env st n).1).rendered =
      st.rendered ++ (pageOutcome env st.hasDoc n).1 := rfl

theorem getPdfPage_errors (env : Env) (st : PdfState) (n : Nat) :
    ((getPdfPage env st n).1).errors =
      st.errors ++ (pageOutcome env st.hasDoc n).2.1 := rfl

theorem renderNextPage_skip (env : Env) (st : PdfState)
    (h : st.isLoading = true ∨ st.total ≤ st.pageNumber) :
    renderNextPage env st = st := by
  unfold renderNextPage; rw [if_pos h]

theorem renderNextPage_isLoading (env : Env) (st : PdfState) :
    (renderNextPage env st).isLoading = st.isLoading := by
  unfold renderNextPage
  split
  · rfl
  · next h =>
    have hl : st.isLoading = false := by
      rcases Bool.eq_false_or_eq_true st.isLoading with ht | hf
      · exact absurd (Or.inl ht) h
      · exact hf
    rw [hl]

theorem renderNextPage_advance (env : Env) (st : PdfState)
    (hl : st.isLoading = false) (hp : st.pageNumber < st.total) :
    (renderNextPage env st).pageNumber = st.pageNumber + 1 ∧
    (renderNextPage env st).total = st.total ∧
    (renderNextPage env st).hasDoc = st.hasDoc ∧
    (renderNextPage env st).isLoading = false ∧
    (renderNextPage env st).requests = st.requests ++ [st.pageNumber + 1] ∧
    (renderNextPage env st).rendered =
      st.rendered ++ (pageOutcome env st.hasDoc (st.pageNumber + 1)).1 ∧
    (renderNextPage env st).visiblePages = st.visiblePages ∧
    (renderNextPage env st).indicator = st.indicator := by
  have hguard : ¬ (st.isLoading = true ∨ st.total ≤ st.pageNumber) := by
    simp [hl]; omega
  unfold renderNextPage
  rw [if_neg hguard]
  exact ⟨rfl, rfl, rfl, rfl, rfl, rfl, rfl, rfl⟩

theorem handleScroll_skip (env : Env) (ev : ScrollEvent) (st : PdfState)
    (h : st.isLoading = true ∨ st.total ≤ st.pageNumber) :
    handleScroll env ev st = st := by
  unfold handleScroll; rw [if_pos h]

theorem handleScroll_far (env : Env) (ev : ScrollEvent) (st : PdfState)
    (h1 : ¬ (st.isLoading = true ∨ st.total ≤ st.pageNumber))
    (h2 : ¬ (ev.scrollHeight - 200 ≤ ev.scrollTop + ev.clientHeight)) :
    handleScroll env ev st = st := by
  unfold handleScroll; rw [if_neg h1, if_neg h2]

theorem handleScroll_near (env : Env) (ev : ScrollEvent) (st : PdfState)
    (h1 : ¬ (st.isLoading = true ∨ st.total ≤ st.pageNumber))
    (h2 : ev.scrollHeight - 200 ≤ ev.scrollTop + ev.clientHeight) :
    handleScroll env ev st = renderNextPage env st := by
  unfold handleScroll; rw [if_neg h1, if_pos h2]

theorem handleScroll_isLoading (env : Env) (ev : ScrollEvent) (st : PdfState) :
    (handleScroll env ev st).isLoading = st.isLoading := by
  unfold handleScroll
  split
  · rfl
  · split
    · exact renderNextPage_isLoading env st
    · rfl

theorem batchGo_fields (env : Env) (e : Nat) :
    ∀ (fuel i : Nat) (st : PdfState),
      (batchGo env e fuel i st).pageNumber = st.pageNumber ∧
      (batchGo env e fuel i st).total = st.total ∧
      (batchGo env e fuel i st).hasDoc = st.hasDoc ∧
      (batchGo env e fuel i st).isLoading = st.isLoading ∧
      (batchGo env e fuel i st).visiblePages = st.visiblePages ∧
      (batchGo env e fuel i st).indicator = st.indicator ∧
      (batchGo env e fuel i st).domChildren = st.domChildren ∧
      (batchGo env e fuel i st).scrollTop = st.scrollTop ∧
      (∃ tl, (batchGo env e fuel i st).rendered = st.rendered ++ tl) ∧
      (∃ tl, (batchGo env e fuel i st).errors = st.errors ++ tl) := by
  intro fuel
  induction fuel with
  | zero =>
    intro i st
    exact ⟨rfl, rfl, rfl, rfl, rfl, rfl, rfl, rfl,
      ⟨[], by simp [batchGo]⟩, ⟨[], by simp [batchGo]⟩⟩
  | succ f ih =>
    intro i st
    unfold batchGo
    split
    · obtain ⟨h1, h2, h3, h4, h5, h6, h7, h8, ⟨t1, h9⟩, ⟨t2, h10⟩⟩ :=
        ih (i + 1) (getPdfPage env st i).1
      have hr : ((getPdfPage env st i).1).rendered =
          st.rendered ++ (pageOutcome env st.hasDoc i).1 := rfl
      have he : ((getPdfPage env st i).1).errors =
          st.errors ++ (pageOutcome env st.hasDoc i).2.1 := rfl
      refine ⟨h1, h2, h3, h4, h5, h6, h7, h8,
        ⟨(pageOutcome env st.hasDoc i).1 ++ t1, ?_⟩,
        ⟨(pageOutcome env st.hasDoc i).2.1 ++ t2, ?_⟩⟩
      · rw [h9, hr, List.append_assoc]
      · rw [h10, he, List.append_assoc]
    · exact ⟨rfl, rfl, rfl, rfl, rfl, rfl, rfl, rfl, ⟨[], by simp⟩, ⟨[], by simp⟩⟩

theorem batchGo_requests (env : Env) (e : Nat) :
    ∀ (fuel i : Nat) (st : PdfState), min e st.total + 1 - i ≤ fuel →
      (batchGo env e fuel i st).requests =
        st.requests ++ List.range' i (min e st.total + 1 - i) := by
  intro fuel
  induction fuel with
  | zero =>
    intro i st h
    have h0 : min e st.total + 1 - i = 0 := Nat.le_zero.mp h
    rw [h0]
    simp [batchGo]
  | succ f ih =>
    intro i st h
    unfold batchGo
    split
    · next hc =>
      have htot : ((getPdfPage env st i).1).total = st.total := rfl
      have hle : min e ((getPdfPage env st i).1).total + 1 - (i + 1) ≤ f := by
        rw [htot]; omega
      rw [ih (i + 1) _ hle, getPdfPage_requests, htot]
      have hlen : min e st.total + 1 - i = (min e st.total + 1 - (i + 1)) + 1 := by
        obtain ⟨hc1, hc2⟩ := hc
        omega
      rw [hlen, List.range'_succ]
      simp
    · next hc =>
      have h0 : min e st.total + 1 - i = 0 := by
        rcases not_and_or.mp hc with h' | h' <;> omega
      rw [h0]
      simp

theorem navigateToPage_isLoading (env : Env) (n : Nat) (st : PdfState) :
    (navigateToPage env n st).isLoading = st.isLoading := by
  unfold navigateToPage
  split
  · rfl
  · next h =>
    have hl : st.isLoading = false := by
      rcases Bool.eq_false_or_eq_true st.isLoading with ht | hf
      · exact absurd (Or.inr (Or.inr (Or.inr ht))) h
      · exact hf
    rw [hl]

theorem fillLoop_isLoading (env : Env) :
    ∀ (fuel : Nat) (st : PdfState), (fillLoop env fuel st).isLoading = st.isLoading := by
  intro fuel
  induction fuel with
  | zero => intro st; rfl
  | succ f ih =>
    intro st
    unfold fillLoop
    split
    · rw [ih, renderNextPage_isLoading]
    · rfl

theorem updatePageIndicator_fields (cur : Nat) (st : PdfState) :
    (updatePageIndicator cur st).pageNumber = st.pageNumber ∧
    (updatePageIndicator cur st).total = st.total ∧
    (updatePageIndicator cur st).hasDoc = st.hasDoc ∧
    (updatePageIndicator cur st).isLoading = st.isLoading ∧
    (updatePageIndicator cur st).rendered = st.rendered ∧
    (updatePageIndicator cur st).requests = st.requests ∧
    (updatePageIndicator cur st).visiblePages = st.visiblePages := by
  unfold updatePageIndicator
  split <;> exact ⟨rfl, rfl, rfl, rfl, rfl, rfl, rfl⟩

theorem openDoc_isLoading (env : Env) (st : PdfState) :
    (openDoc env st).isLoading = st.isLoading := by
  unfold openDoc openBase
  rw [fillLoop_isLoading]
  exact (updatePageIndicator_fields 1 _).2.2.2.1

theorem step_isLoading (env : Env) (st : PdfState) (op : Op) :
    (step env st op).isLoading = st.isLoading := by
  cases op with
  | navigate n => exact navigateToPage_isLoading env n st
  | scroll ev => exact handleScroll_isLoading env ev st
  | openFill => exact openDoc_isLoading env st

/-- Claim C1: across every sequence of completed public operations (document
open with initial fill, scroll continuation, navigateToPage), the busy flag
isLoading is false immediately before and after each operation: starting from
any not-busy state, running any sequence of operations (hence also any prefix
of a longer sequence) ends not busy, because navigateToPage clears the flag on
every exit path and renderNextPage clears it after each single-page render. -/
theorem C1_busy_flag_never_leaked (env : Env) (ops : List Op) (st : PdfState)
    (h : st.isLoading = false) : (runOps env st ops).isLoading = false := by
  induction ops generalizing st with
  | nil => exact h
  | cons op ops ih =>
    have hstep : runOps env st (op :: ops) = runOps env (step env st op) ops := rfl
    rw [hstep]
    exact ih _ (by rw [step_isLoading]; exact h)

theorem C1_witness :
    (runOps ⟨5, fun l => 10 * l.length, fun _ => true, fun _ => "", fun _ => true,
        fun _ => true, fun _ => "", 4⟩ initState
      [Op.openFill, Op.scroll ⟨0, 100, 250⟩, Op.navigate 2, Op.scroll ⟨0, 100, 100⟩]).isLoading
      = false :=
  C1_busy_flag_never_leaked _ _ initState rfl

/-- Claim C3: for every scroll event, if the busy flag is set or all pages are
already rendered the event is dropped with no state change (no render, nothing
queued); otherwise, when the scroll position is within 200 layout units of the
bottom, exactly one render operation is performed, for the cursor's successor
(one wrapper at most is appended), and the cursor advances by exactly one;
when not near the bottom nothing happens. -/
theorem C3_scroll_renders_at_most_one (env : Env) (ev : ScrollEvent) (st : PdfState) :
    ((st.isLoading = true ∨ st.total ≤ st.pageNumber) → handleScroll env ev st = st) ∧
    (st.isLoading = false → st.pageNumber < st.total →
      ev.scrollHeight - 200 ≤ ev.scrollTop + ev.clientHeight →
        (handleScroll env ev st).requests = st.requests ++ [st.pageNumber + 1] ∧
        (handleScroll env ev st).pageNumber = st.pageNumber + 1 ∧
        (handleScroll env ev st).rendered =
          st.rendered ++ (pageOutcome env st.hasDoc (st.pageNumber + 1)).1 ∧
        (handleScroll env ev st).isLoading = false) ∧
    (st.isLoading = false → st.pageNumber < st.total →
      ev.scrollTop + ev.clientHeight < ev.scrollHeight - 200 →
        handleScroll env ev st = st) := by
  refine ⟨fun h => handleScroll_skip env ev st h, ?_, ?_⟩
  · intro hl hp hb
    have hg : ¬ (st.isLoading = true ∨ st.total ≤ st.pageNumber) := by
      simp [hl]; omega
    rw [handleScroll_near env ev st hg hb]
    obtain ⟨h1, _, _, h4, h5, h6, _, _⟩ := renderNextPage_advance env st hl hp
    exact ⟨h5, h1, h6, h4⟩
  · intro hl hp hb
    have hg : ¬ (st.isLoading = true ∨ st.total ≤ st.pageNumber) := by
      simp [hl]; omega
    exact handleScroll_far env ev st hg (by omega)

theorem C3_witness :
    (handleScroll ⟨5, fun l => 10 * l.length, fun _ => true, fun _ => "",
        fun _ => true, fun _ => true, fun _ => "", 3⟩ ⟨0, 100, 250⟩
        {initState with hasDoc := true, total := 3}).requests = [1] := by
  have h := (C3_scroll_renders_at_most_one
    ⟨5, fun l => 10 * l.length, fun _ => true, fun _ => "",
      fun _ => true, fun _ => true, fun _ => "", 3⟩ ⟨0, 100, 250⟩
    {initState with hasDoc := true, total := 3}).2.1 rfl (by decide) (by decide)
  simpa using h.1

/-- Claim C6: navigateToPage with a target outside the valid range 1..total,
or invoked while the busy flag is set, is rejected before any mutation: the
whole state (container content, page cursor, visible set, busy flag, scroll
position, indicator) is returned unchanged. -/
theorem C6_navigate_rejected_unchanged (env : Env) (n : Nat) (st : PdfState)
    (h : n = 0 ∨ st.total < n ∨ st.isLoading = true) :
    navigateToPage env n st = st := by
  unfold navigateToPage
  rw [if_pos]
  rcases h with h | h | h
  · exact Or.inl (by omega)
  · exact Or.inr (Or.inl h)
  · exact Or.inr (Or.inr (Or.inr h))

theorem C6_witness :
    navigateToPage ⟨5, fun l => 10 * l.length, fun _ => true, fun _ => "",
        fun _ => true, fun _ => true, fun _ => "", 3⟩ 7
      {initState with hasDoc := true, total := 3} =
      {initState with hasDoc := true, total := 3} :=
  C6_navigate_rejected_unchanged _ 7 _ (Or.inr (Or.inl (by decide)))

theorem fillIter_spec (env : Env) :
    ∀ (k : Nat) (st : PdfState), st.isLoading = false →
      (∀ j, j < k → fillGuard env ((renderNextPage env)^[j] st)) →
      ((renderNextPage env)^[k] st).pageNumber = st.pageNumber + k ∧
      ((renderNextPage env)^[k] st).requests =
        st.requests ++ List.range' (st.pageNumber + 1) k ∧
      ((renderNextPage env)^[k] st).isLoading = false ∧
      ((renderNextPage env)^[k] st).total = st.total := by
  intro k
  induction k with
  | zero => intro st hl _; simp [hl]
  | succ k ih =>
    intro st hl hg
    have hg0 : fillGuard env st := by simpa using hg 0 (Nat.succ_pos k)
    obtain ⟨hp, htot, _, hl', hreq, _, _, _⟩ := renderNextPage_advance env st hl hg0.1
    have hshift : ∀ j, j < k →
        fillGuard env ((renderNextPage env)^[j] (renderNextPage env st)) := by
      intro j hj
      have h := hg (j + 1) (by omega)
      rwa [Function.iterate_succ_apply] at h
    obtain ⟨i1, i2, i3, i4⟩ := ih (renderNextPage env st) hl' hshift
    rw [Function.iterate_succ_apply]
    refine ⟨?_, ?_, i3, ?_⟩
    · rw [i1, hp]; omega
    · rw [i2, hreq, hp, List.range'_succ]
      simp
    · rw [i4, htot]

theorem fillLoop_spec (env : Env) :
    ∀ (fuel : Nat) (st : PdfState), st.isLoading = false →
      st.total - st.pageNumber ≤ fuel →
      ∃ k, fillLoop env fuel st = (renderNextPage env)^[k] st ∧
        (∀ j, j < k → fillGuard env ((renderNextPage env)^[j] st)) ∧
        ¬ fillGuard env ((renderNextPage env)^[k] st) := by
  intro fuel
  induction fuel with
  | zero =>
    intro st hl hf
    refine ⟨0, rfl, fun j hj => absurd hj (Nat.not_lt_zero j), ?_⟩
    intro hgg
    rw [Function.iterate_zero_apply] at hgg
    have := hgg.1
    omega
  | succ f ih =>
    intro st hl hf
    unfold fillLoop
    by_cases hg : fillGuard env st
    · rw [if_pos hg]
      obtain ⟨hp, htot, _, hl', _, _, _, _⟩ := renderNextPage_advance env st hl hg.1
      have hf' : (renderNextPage env st).total - (renderNextPage env st).pageNumber ≤ f := by
        rw [hp, htot]
        have := hg.1
        omega
      obtain ⟨k, e1, e2, e3⟩ := ih (renderNextPage env st) hl' hf'
      refine ⟨k + 1, ?_, ?_, ?_⟩
      · rw [e1, Function.iterate_succ_apply]
      · intro j hj
        cases j with
        | zero => simpa using hg
        | succ j =>
          rw [Function.iterate_succ_apply]
          exact e2 j (by omega)
      · rw [Function.iterate_succ_apply]
        exact e3
    · rw [if_neg hg]
      refine ⟨0, rfl, fun j hj => absurd hj (Nat.not_lt_zero j), ?_⟩
      intro hgg
      rw [Function.iterate_zero_apply] at hgg
      exact hg hgg

theorem openBase_init_fields (env : Env) :
    (openBase env initState).pageNumber = 0 ∧
    (openBase env initState).total = env.numPages ∧
    (openBase env initState).isLoading = false ∧
    (openBase env initState).requests = [] ∧
    (openBase env initState).rendered = [] := by
  unfold openBase updatePageIndicator
  split <;> exact ⟨rfl, rfl, rfl, rfl, rfl⟩

/-- Claim C2: on document open, the initial fill renders pages one at a time
starting at page 1 (its requests are exactly 1, 2, ..., k in order, where k is
the final page cursor), it runs exactly while not all pages are rendered and
the content's scroll extent is below the viewport's client extent or no page
has been rendered yet, its exit state has either all pages rendered or scroll
extent at least the client extent, and for every document with at least one
page at least one page is rendered even if the viewport is already full. -/
theorem C2_initial_fill_stops_exactly (env : Env) :
    openDoc env initState =
      (renderNextPage env)^[(openDoc env initState).pageNumber] (openBase env initState) ∧
    (∀ j, j < (openDoc env initState).pageNumber →
      ((renderNextPage env)^[j] (openBase env initState)).pageNumber < env.numPages ∧
      (env.contentHeight ((renderNextPage env)^[j] (openBase env initState)).rendered <
          env.clientHeight ∨
        ((renderNextPage env)^[j] (openBase env initState)).pageNumber = 0)) ∧
    ((openDoc env initState).pageNumber = env.numPages ∨
      (env.clientHeight ≤ env.contentHeight (openDoc env initState).rendered ∧
        0 < (openDoc env initState).pageNumber)) ∧
    (openDoc env initState).requests =
      List.range' 1 (openDoc env initState).pageNumber ∧
    (0 < env.numPages → 0 < (openDoc env initState).pageNumber) := by
  obtain ⟨hb1, hb2, hb3, hb4, hb5⟩ := openBase_init_fields env
  have hopen : openDoc env initState =
      fillLoop env (openBase env initState).total (openBase env initState) := rfl
  obtain ⟨k, e1, e2, e3⟩ :=
    fillLoop_spec env (openBase env initState).total (openBase env initState) hb3 (by omega)
  obtain ⟨i1, i2, i3, i4⟩ := fillIter_spec env k (openBase env initState) hb3 e2
  rw [hb1, Nat.zero_add] at i1
  rw [hb2] at i4
  have hpk : (openDoc env initState).pageNumber = k := by
    rw [hopen, e1, i1]
  have hiter_pn : ∀ j, j < k →
      ((renderNextPage env)^[j] (openBase env initState)).pageNumber = j ∧
      ((renderNextPage env)^[j] (openBase env initState)).total = env.numPages := by
    intro j hj
    obtain ⟨j1, _, _, j4⟩ :=
      fillIter_spec env j (openBase env initState) hb3 (fun i hi => e2 i (by omega))
    rw [hb1, Nat.zero_add] at j1
    rw [hb2] at j4
    exact ⟨j1, j4⟩
  have hkle : k ≤ env.numPages := by
    rcases Nat.eq_zero_or_pos k with h0 | hpos
    · omega
    · have hgk := e2 (k - 1) (by omega)
      obtain ⟨j1, j4⟩ := hiter_pn (k - 1) (by omega)
      have := hgk.1
      rw [j1, j4] at this
      omega
  refine ⟨by rw [hpk, hopen, e1], ?_, ?_, ?_, ?_⟩
  · intro j hj
    rw [hpk] at hj
    obtain ⟨j1, j4⟩ := hiter_pn j hj
    have hgj := e2 j hj
    exact ⟨by rw [← j4]; exact hgj.1, hgj.2⟩
  · unfold fillGuard at e3
    push_neg at e3
    rw [i1, i4] at e3
    rw [hpk, hopen, e1]
    by_cases hlt : k < env.numPages
    · have hstop := e3 hlt
      right
      have := hstop.2
      exact ⟨hstop.1, by omega⟩
    · left
      omega
  · rw [hpk, hopen, e1, i2, hb4, hb1]
    simp
  · intro hN
    rw [hpk]
    by_contra h0
    push_neg at h0
    have hk0 : k = 0 := by omega
    subst hk0
    rw [Function.iterate_zero_apply] at e3
    exact e3 ⟨by omega, Or.inr hb1⟩

theorem C2_witness :
    (openDoc ⟨5, fun l => 10 * l.length, fun _ => true, fun _ => "", fun _ => true,
        fun _ => true, fun _ => "", 2⟩ initState).requests =
      List.range' 1 (openDoc ⟨5, fun l => 10 * l.length, fun _ => true, fun _ => "",
        fun _ => true, fun _ => true, fun _ => "", 2⟩ initState).pageNumber ∧
    0 < (openDoc ⟨5, fun l => 10 * l.length, fun _ => true, fun _ => "", fun _ => true,
        fun _ => true, fun _ => "", 2⟩ initState).pageNumber :=
  ⟨(C2_initial_fill_stops_exactly ⟨5, fun l => 10 * l.length, fun _ => true, fun _ => "",
      fun _ => true, fun _ => true, fun _ => "", 2⟩).2.2.2.1,
   (C2_initial_fill_stops_exactly ⟨5, fun l => 10 * l.length, fun _ => true, fun _ => "",
      fun _ => true, fun _ => true, fun _ => "", 2⟩).2.2.2.2 (by decide)⟩

theorem scrollRun_spec (env : Env) :
    ∀ (evs : List ScrollEvent) (st : PdfState), st.isLoading = false →
      ∃ k, (scrollRun env evs st).requests =
            st.requests ++ List.range' (st.pageNumber + 1) k ∧
        (scrollRun env evs st).pageNumber = st.pageNumber + k ∧
        (scrollRun env evs st).isLoading = false ∧
        (scrollRun env evs st).total = st.total := by
  intro evs
  induction evs with
  | nil =>
    intro st hl
    exact ⟨0, by simp [scrollRun], by simp [scrollRun], by simpa [scrollRun] using hl,
      by simp [scrollRun]⟩
  | cons ev evs ih =>
    intro st hl
    have hrun : scrollRun env (ev :: evs) st = scrollRun env evs (handleScroll env ev st) := rfl
    rw [hrun]
    by_cases hg : st.isLoading = true ∨ st.total ≤ st.pageNumber
    · rw [handleScroll_skip env ev st hg]
      exact ih st hl
    · by_cases hb : ev.scrollHeight - 200 ≤ ev.scrollTop + ev.clientHeight
      · rw [handleScroll_near env ev st hg hb]
        have hp : st.pageNumber < st.total := by
          rcases not_or.mp hg with ⟨_, h2⟩
          omega
        obtain ⟨a1, a2, _, a4, a5, _, _, _⟩ := renderNextPage_advance env st hl hp
        obtain ⟨k, r1, r2, r3, r4⟩ := ih (renderNextPage env st) a4
        refine ⟨k + 1, ?_, ?_, r3, ?_⟩
        · rw [r1, a5, a1, List.range'_succ]
          simp
        · rw [r2, a1]
          omega
        · rw [r4, a2]
      · rw [handleScroll_far env ev st hg hb]
        exact ih st hl

/-- Claim C10: after every single-page render step the page cursor advances to
the requested page number regardless of whether that page's render returned a
failure result (the environment, including failing ones, is universally
quantified), and across any sequence of scroll events the requested pages are
exactly the consecutive run cursor+1, ..., cursor+k, so a page that failed to
render is counted as rendered and is never requested again. -/
theorem C10_failed_page_counted_rendered (env : Env) (evs : List ScrollEvent)
    (st : PdfState) (h : st.isLoading = false) :
    (st.pageNumber < st.total →
      (renderNextPage env st).pageNumber = st.pageNumber + 1 ∧
      (renderNextPage env st).requests = st.requests ++ [st.pageNumber + 1]) ∧
    ∃ k, (scrollRun env evs st).requests =
          st.requests ++ List.range' (st.pageNumber + 1) k ∧
      (scrollRun env evs st).pageNumber = st.pageNumber + k ∧
      (scrollRun env evs st).isLoading = false := by
  refine ⟨?_, ?_⟩
  · intro hp
    obtain ⟨a1, _, _, _, a5, _, _, _⟩ := renderNextPage_advance env st h hp
    exact ⟨a1, a5⟩
  · obtain ⟨k, r1, r2, r3, _⟩ := scrollRun_spec env evs st h
    exact ⟨k, r1, r2, r3⟩

theorem C10_witness :
    (renderNextPage ⟨5, fun l => 10 * l.length, fun _ => false, fun _ => "boom",
        fun _ => true, fun _ => true, fun _ => "", 2⟩
      {initState with hasDoc := true, total := 2}).pageNumber = 1 ∧
    (renderNextPage ⟨5, fun l => 10 * l.length, fun _ => false, fun _ => "boom",
        fun _ => true, fun _ => true, fun _ => "", 2⟩
      {initState with hasDoc := true, total := 2}).requests = [1] := by
  have h := (C10_failed_page_counted_rendered
    ⟨5, fun l => 10 * l.length, fun _ => false, fun _ => "boom",
      fun _ => true, fun _ => true, fun _ => "", 2⟩ []
    {initState with hasDoc := true, total := 2} rfl).1 (by decide)
  simpa using h

theorem max'_eq_of_eq {s t : Finset Nat} (hst : s = t) (hs : s.Nonempty)
    (ht : t.Nonempty) : s.max' hs = t.max' ht := by
  subst hst
  rfl

theorem handlePageIntersection_visible (entries : List IEntry) (st : PdfState) :
    (handlePageIntersection entries st).visiblePages =
      entries.foldl applyEntry st.visiblePages := by
  simp only [handlePageIntersection]
  split
  · simp only [updatePageIndicator]
    split <;> rfl
  · rfl

theorem handlePageIntersection_indicator (entries : List IEntry) (st : PdfState)
    (htot : 0 < st.total)
    (hcard : 0 < (entries.foldl applyEntry st.visiblePages).card) :
    (handlePageIntersection entries st).indicator =
      some ((entries.foldl applyEntry st.visiblePages).max'
        (Finset.card_pos.mp hcard)) := by
  simp only [handlePageIntersection]
  rw [dif_pos hcard]
  simp only [updatePageIndicator]
  rw [if_pos htot]

/-- Claim C4: for an open document (at least one page), after every
intersection update that leaves the visible set non-empty, the displayed
current-page indicator equals the maximum page number in the visible set (the
furthest page reached, not the topmost visible one). -/
theorem C4_indicator_is_max_visible (entries : List IEntry) (st : PdfState)
    (htot : 0 < st.total)
    (h : (handlePageIntersection entries st).visiblePages.Nonempty) :
    (handlePageIntersection entries st).indicator =
      some ((handlePageIntersection entries st).visiblePages.max' h) := by
  have hvp := handlePageIntersection_visible entries st
  have hne : (entries.foldl applyEntry st.visiblePages).Nonempty := hvp ▸ h
  have hcard : 0 < (entries.foldl applyEntry st.visiblePages).card :=
    Finset.card_pos.mpr hne
  rw [handlePageIntersection_indicator entries st htot hcard]
  exact congrArg some (max'_eq_of_eq hvp.symm _ _)

theorem C4_witness :
    (handlePageIntersection [⟨5, true⟩, ⟨2, true⟩]
      {initState with total := 10}).indicator = some 5 := by
  have h : (handlePageIntersection [⟨5, true⟩, ⟨2, true⟩]
      {initState with total := 10}).visiblePages.Nonempty := by decide
  rw [C4_indicator_is_max_visible [⟨5, true⟩, ⟨2, true⟩]
    {initState with total := 10} (by decide) h]
  rfl

/-- Claim C5 counterexample: the claim states that the device scale defaults
to 1 whenever devicePixelRatio is unavailable, but on the Safari branch the
code computes Math.min(window.devicePixelRatio, 2) without a default, which
for an undefined devicePixelRatio is NaN, not 1. -/
theorem C5_counterexample :
    deviceScale true none = JsNum.nan ∧ deviceScale true none ≠ JsNum.num 1 := by
  decide

/-- Claim C5 (amended): for every page render the device scale used is
min(devicePixelRatio, 2) when the runtime is the Safari engine (which is NaN
when devicePixelRatio is unavailable, since no default is applied on that
branch), and devicePixelRatio otherwise, defaulting to 1 when devicePixelRatio
is unavailable; in particular Safari with devicePixelRatio=3 yields 2,
non-Safari with devicePixelRatio=3 yields 3, and an undefined devicePixelRatio
yields 1 when the runtime is not Safari. -/
theorem C5_device_scale_amended :
    (∀ q : ℚ, deviceScale true (some q) = JsNum.num (min q 2)) ∧
    (∀ q : ℚ, q ≠ 0 → deviceScale false (some q) = JsNum.num q) ∧
    deviceScale false none = JsNum.num 1 ∧
    deviceScale true none = JsNum.nan ∧
    deviceScale true (some 3) = JsNum.num 2 ∧
    deviceScale false (some 3) = JsNum.num 3 := by
  refine ⟨fun q => rfl, fun q hq => ?_, rfl, rfl, ?_, ?_⟩
  · simp [deviceScale, jsOrDefault, hq]
  · show JsNum.num (min (3 : ℚ) 2) = JsNum.num 2
    norm_num
  · decide

theorem C5_witness : deviceScale false (some 5) = JsNum.num 5 :=
  C5_device_scale_amended.2.1 5 (by norm_num)

theorem isInfixOfChars_nil (l : List Char) : isInfixOfChars [] l = true := by
  cases l with
  | nil => rfl
  | cons c cs => simp [isInfixOfChars, List.isPrefixOf]

theorem selfMatch_empty (title : String) : selfMatch title "" = true := by
  unfold selfMatch
  have he : ("" : String).toList = [] := rfl
  rw [he, isInfixOfChars_nil]

mutual

theorem filterTocItem_eq (t : TocItem) (s : String) :
    filterTocItem t s = (markVisible t s, subtreeMatch t s) := by
  cases t with
  | node title v children =>
    have hf := filterTocForest_eq children s
    simp only [filterTocItem, markVisible, subtreeMatch, selfMatch, hf]

theorem filterTocForest_eq (f : TocForest) (s : String) :
    filterTocForest f s = (markForest f s, forestMatch f s) := by
  cases f with
  | nil => rfl
  | cons t ts =>
    have h1 := filterTocItem_eq t s
    have h2 := filterTocForest_eq ts s
    simp only [filterTocForest, markForest, forestMatch, h1, h2]

end

mutual

theorem markVisible_empty (t : TocItem) : markVisible t "" = setVisibleAll t := by
  cases t with
  | node title v children =>
    have hf := markForest_empty children
    simp only [markVisible, setVisibleAll, subtreeMatch, selfMatch_empty,
      Bool.true_or, hf]

theorem markForest_empty (f : TocForest) : markForest f "" = setForestAll f := by
  cases f with
  | nil => rfl
  | cons t ts =>
    have h1 := markVisible_empty t
    have h2 := markForest_empty ts
    simp only [markForest, setForestAll, h1, h2]

end

mutual

theorem setVisibleAll_mark (t : TocItem) (s : String) :
    setVisibleAll (markVisible t s) = setVisibleAll t := by
  cases t with
  | node title v children =>
    have hf := setForestAll_mark children s
    simp only [markVisible, setVisibleAll, hf]

theorem setForestAll_mark (f : TocForest) (s : String) :
    setForestAll (markForest f s) = setForestAll f := by
  cases f with
  | nil => rfl
  | cons t ts =>
    have h1 := setVisibleAll_mark t s
    have h2 := setForestAll_mark ts s
    simp only [markForest, setForestAll, h1, h2]

end

/-- Claim C7: outline search is a pure filter: filtering equals marking every
node's visibility flag with the predicate "its own (lowercased) title contains
the search text or some descendant node matches", evaluated recursively; it
never removes tree structure (the filtered tree agrees with the original once
visibility flags are erased); and filtering with the cleared (empty) query
makes every node visible again. -/
theorem C7_outline_search_pure_filter :
    (∀ (t : TocItem) (s : String),
      filterTocItem t s = (markVisible t s, subtreeMatch t s)) ∧
    (∀ (t : TocItem) (s : String),
      setVisibleAll (filterTocItem t s).1 = setVisibleAll t) ∧
    (∀ roots : TocForest, handleTocSearch roots "" = setForestAll roots) := by
  refine ⟨filterTocItem_eq, ?_, ?_⟩
  · intro t s
    rw [filterTocItem_eq]
    exact setVisibleAll_mark t s
  · intro roots
    unfold handleTocSearch
    have he : ("" : String).toLower.trim = "" := by
      have h1 : ("" : String).toLower = "" := by
        rw [String.toLower, String.map, String.mapAux.eq_def]
        simp [String.atEnd]
        exact fun h => absurd rfl h
      rw [h1]
      simp [String.trim, Substring.trim, String.toSubstring, Substring.toString,
        Substring.takeWhileAux, Substring.takeRightWhileAux, String.endPos,
        String.utf8ByteSize, String.extract]
    rw [he, filterTocForest_eq]
    exact markForest_empty roots

/-- Claim C8 counterexample: with the drawing context unavailable for page 2
only, rendering the batch of pages 1..3 reports page 2's failure through the
error channel yet still renders page 3 afterwards, refuting the claim that
the remainder of the batch is aborted after a failed page. -/
theorem C8_counterexample :
    (renderPagesBatch ⟨0, fun _ => 0, fun _ => true, fun _ => "", fun n => !(n == 2),
        fun _ => true, fun _ => "", 3⟩
      {initState with hasDoc := true, total := 3} 1 3).errors = [msgNoCtx] ∧
    (renderPagesBatch ⟨0, fun _ => 0, fun _ => true, fun _ => "", fun n => !(n == 2),
        fun _ => true, fun _ => "", 3⟩
      {initState with hasDoc := true, total := 3} 1 3).rendered = [1, 2, 3] := by
  decide

/-- Claim C8 (amended): when rendering a page fails (missing drawing context
or rejected render), getPdfPage returns a failure result whose message is also
appended to the error channel, it never throws past its caller (it is a total
function into a result value), and the wrapper of the failed page plus all
previously rendered pages remain intact; however the remainder of the current
multi-page batch is not aborted: renderPagesBatch ignores per-page results and
requests every page of its range regardless of failures, while leaving the
previously rendered pages in place. -/
theorem C8_page_failure_reported_batch_continues (env : Env) (st : PdfState) (n : Nat)
    (hdoc : st.hasDoc = true) (hget : env.getPageOk n = true)
    (hfail : env.ctxOk n = false ∨ env.renderOk n = false) :
    ((getPdfPage env st n).2.success = false ∧
      ∃ m, (getPdfPage env st n).2.message = some m ∧
        (getPdfPage env st n).1.errors = st.errors ++ [m] ∧
        (getPdfPage env st n).1.rendered = st.rendered ++ [n]) ∧
    (∀ a b, (∃ tl, (renderPagesBatch env st a b).rendered = st.rendered ++ tl) ∧
      (renderPagesBatch env st a b).requests =
        st.requests ++ List.range' a (min b st.total + 1 - a)) := by
  constructor
  · by_cases hc : env.ctxOk n = true
    · have hr : env.renderOk n = false := by
        rcases hfail with h | h
        · rw [hc] at h
          exact absurd h (by simp)
        · exact h
      refine ⟨?_, env.renderMsg n, ?_, ?_, ?_⟩ <;>
        simp [getPdfPage, pageOutcome, hdoc, hget, hc, hr]
    · have hc' : env.ctxOk n = false := by
        rcases Bool.eq_false_or_eq_true (env.ctxOk n) with h | h
        · exact absurd h hc
        · exact h
      refine ⟨?_, msgNoCtx, ?_, ?_, ?_⟩ <;>
        simp [getPdfPage, pageOutcome, hdoc, hget, hc']
  · intro a b
    constructor
    · obtain ⟨_, _, _, _, _, _, _, _, hrend, _⟩ :=
        batchGo_fields env b (min b st.total + 1 - a) a st
      exact hrend
    · exact batchGo_requests env b _ a st (Nat.le_refl _)

theorem C8_witness :
    (getPdfPage ⟨0, fun _ => 0, fun _ => true, fun _ => "", fun n => !(n == 2),
        fun _ => true, fun _ => "", 3⟩
      {initState with hasDoc := true, total := 3} 2).2.success = false :=
  (C8_page_failure_reported_batch_continues _ _ 2 rfl rfl (Or.inl rfl)).1.1

/-- Claim C9 counterexample: after a failed document load the mount element is
not empty: the chrome container appended by the constructor (page container,
controls, table-of-contents pane, loading indicator) is never removed, and no
error notification element is mounted, so the mount still holds that one
chrome child rather than ending up empty apart from an error notification. -/
theorem C9_counterexample :
    (renderPdf ⟨0, fun _ => 0, fun _ => true, fun _ => "", fun _ => true,
        fun _ => true, fun _ => "", 0⟩
      (some ("Invalid PDF structure"))).domChildren = 1 ∧
    ¬ (renderPdf ⟨0, fun _ => 0, fun _ => true, fun _ => "", fun _ => true,
        fun _ => true, fun _ => "", 0⟩
      (some ("Invalid PDF structure"))).domChildren = 0 := by
  decide

/-- Claim C9 (amended): when the document fails to load, the failure is
reported through the error channel (first with the load message by the
pdfPreview catch handler, then with the generic fallback message by renderPdf,
which catches the rejected promise so no uncaught failure propagates past the
engine boundary), and no page is rendered or requested; however the mount
element does not end up empty: it retains the single chrome container appended
by the constructor, and the error is signalled through the callback rather
than by a mounted notification. -/
theorem C9_load_failure_reported_chrome_remains (env : Env) (msg : String) :
    (renderPdf env (some msg)).errors = [msg, msgRenderPdfFallback] ∧
    (renderPdf env (some msg)).rendered = [] ∧
    (renderPdf env (some msg)).requests = [] ∧
    (renderPdf env (some msg)).domChildren = 1 ∧
    (pdfPreviewRun env (some msg) initState).2 =
      Except.error ⟨false, none, some msg⟩ := by
  refine ⟨rfl, rfl, rfl, rfl, rfl⟩
